import Mathlib

/-
Verification development for the Store-Monitoring repository.

Shallow embedding conventions:
* a naive UTC datetime is an integer number of seconds since the epoch
  (1970-01-01 00:00:00, a Thursday, so Python's `weekday()` of the epoch
  is 3); `datetime.date()` is floor division by 86400 and
  `datetime.combine(date, t)` is `date * 86400 + t`;
* a `datetime.time` value is a number of seconds within a day (a `Nat`);
* a timezone (pytz zone) is modelled as a fixed offset east of UTC in
  seconds: converting UTC to local wall-clock time adds the offset and
  localizing a wall-clock time back to UTC subtracts it (daylight-saving
  transitions are outside the model);
* durations accumulated by the code (`total_seconds() / 60` and the final
  division by 60) are exact rationals (`ℚ`);
* a store's status observations are passed to the functions as a list;
  the SQL filter `start_time <= timestamp_utc <= end_time` of
  `interpolate_status_for_period` is an explicit `List.filter`, and the
  SQL `order_by` is a sortedness hypothesis where a theorem needs it.
-/

/-- Row of the `store_status` table (models.py `StoreStatus`): a UTC
timestamp in seconds and a status string (normally "active" or
"inactive"). The `id` and `store_id` columns are dropped: every function
below already receives the records of a single store. -/
structure StoreStatus where
  timestamp_utc : Int
  status : String
deriving DecidableEq, Repr

/-- Row of the `business_hours` table (models.py `BusinessHours`):
day_of_week (0 = Monday .. 6 = Sunday) and local start/end times of day
in seconds. -/
structure BusinessHours where
  day_of_week : Nat
  start_time_local : Nat
  end_time_local : Nat
deriving DecidableEq, Repr

/-- Row of the `reports` table (models.py `Report`): the status string
("Running", "Complete" or "Failed") and the nullable artifact file path. -/
structure Report where
  status : String
  file_path : Option String
deriving DecidableEq, Repr

/-- The weekly business-hours mapping built by `get_business_hours`
(a Python dict keyed by day-of-week 0..6). -/
abbrev HoursDict := Nat → Option (Nat × Nat)

/-- The 24/7 default of `get_business_hours` (report_generator.py line 40):
`{i: (time(0, 0), time(23, 59, 59)) for i in range(7)}`. `time(23,59,59)`
is 86399 seconds. -/
def default_hours_dict : HoursDict :=
  fun i => if i < 7 then some (0, 86399) else none

/-- Embedding of `ReportGeneratorService.get_business_hours`
(report_generator.py lines 32-46): with zero stored rows it returns the
24/7 default; otherwise it builds a dict from the rows in order (a later
row for the same day overwrites an earlier one, as in a Python dict). -/
def get_business_hours (rows : List BusinessHours) : HoursDict :=
  if rows.isEmpty then default_hours_dict
  else
    rows.foldl
      (fun acc bh => fun d =>
        if d = bh.day_of_week then some (bh.start_time_local, bh.end_time_local)
        else acc d)
      (fun _ => none)

/-- Weekday (0 = Monday) of the local wall-clock time obtained by
converting the UTC midnight of UTC date `date` to the zone with offset
`timezone_offset`: report_generator.py lines 122, 126-127
(`local_day_start = convert_utc_to_local(day_start); day_of_week =
local_day_start.weekday()`). The epoch day is a Thursday (weekday 3). -/
def localWeekday (timezone_offset date : Int) : Nat :=
  (((date * 86400 + timezone_offset).fdiv 86400 + 3).emod 7).toNat

/-- Local calendar date (`local_day_start.date()`) of the converted UTC
midnight of UTC date `date`: report_generator.py line 137. -/
def localDate (timezone_offset date : Int) : Int :=
  (date * 86400 + timezone_offset).fdiv 86400

/-- Embedding of report_generator.py lines 136-147: combine the local
calendar date with the window's start/end times of day, add one day to
the end when `bh_start > bh_end` (overnight window), then localize to UTC
(subtract the zone offset). Returns `(bh_start_utc, bh_end_utc)` as naive
UTC instants (the code strips tzinfo again on lines 150-151). -/
def bhWindowUtc (timezone_offset local_date : Int) (bh_start bh_end : Nat) : Int × Int :=
  let bh_start_dt : Int := local_date * 86400 + (bh_start : Int)
  let bh_end_dt : Int := local_date * 86400 + (bh_end : Int)
  let bh_end_dt : Int := if (bh_end : Int) < (bh_start : Int) then bh_end_dt + 86400 else bh_end_dt
  (bh_start_dt - timezone_offset, bh_end_dt - timezone_offset)

/-- Embedding of the inner interpolation loop of
`interpolate_status_for_period` (report_generator.py lines 166-187): walk
the day's records starting from cursor `last_timestamp` with running
status `last_status` (initially "inactive"); the time up to each record
goes to the running status, which then becomes the record's status; the
remaining time up to `period_end` goes to the final running status.
Returns `(uptime_minutes, downtime_minutes)`. -/
def walkRecords (period_end : Int) (day_records : List StoreStatus)
    (last_timestamp : Int) (last_status : String) : ℚ × ℚ :=
  match day_records with
  | [] =>
    let remaining : ℚ := ((period_end - last_timestamp : Int) : ℚ) / 60
    if last_status = "active" then (remaining, 0) else (0, remaining)
  | r :: rest =>
    let duration : ℚ := ((r.timestamp_utc - last_timestamp : Int) : ℚ) / 60
    let tail := walkRecords period_end rest r.timestamp_utc r.status
    if last_status = "active" then (tail.1 + duration, tail.2) else (tail.1, tail.2 + duration)

/-- Embedding of one iteration of the per-day while loop of
`interpolate_status_for_period` (report_generator.py lines 121-189) for
the UTC date `date`: resolve the local weekday of the day's UTC midnight,
skip the day when the weekday has no business-hours entry (lines
129-131), build the day's UTC business window (lines 136-147), clip it to
`[start_time, end_time]` (lines 150-151), skip when empty (lines
153-155), attribute the whole clipped period to downtime when it contains
no record (lines 161-164), and otherwise interpolate (lines 166-187).
Returns the day's `(uptime_minutes, downtime_minutes)` contribution. -/
def processDay (start_time end_time timezone_offset : Int)
    (business_hours : HoursDict) (status_records : List StoreStatus)
    (date : Int) : ℚ × ℚ :=
  match business_hours (localWeekday timezone_offset date) with
  | none => (0, 0)
  | some (bh_start, bh_end) =>
    let w := bhWindowUtc timezone_offset (localDate timezone_offset date) bh_start bh_end
    let period_start := max start_time w.1
    let period_end := min end_time w.2
    if period_end ≤ period_start then (0, 0)
    else
      let day_records := status_records.filter fun r =>
        decide (period_start ≤ r.timestamp_utc) && decide (r.timestamp_utc ≤ period_end)
      if day_records.isEmpty then
        (0, ((period_end - period_start : Int) : ℚ) / 60)
      else
        walkRecords period_end day_records period_start "inactive"

/-- Embedding of `ReportGeneratorService.interpolate_status_for_period`
(report_generator.py lines 88-192). `records` is the store's full
observation list; the function applies the query's range filter
(lines 102-108). With no record in range it returns `(0.0, 0.0)`
(lines 110-112). Otherwise it iterates the UTC dates from
`start_time.date()` through `end_time.date()` inclusive, summing the
per-day contributions, and converts minutes to hours (line 192).
Returns `(uptime_hours, downtime_hours)`. -/
def interpolate_status_for_period (start_time end_time timezone_offset : Int)
    (business_hours : HoursDict) (records : List StoreStatus) : ℚ × ℚ :=
  let status_records := records.filter fun r =>
    decide (start_time ≤ r.timestamp_utc) && decide (r.timestamp_utc ≤ end_time)
  if status_records.isEmpty then (0, 0)
  else
    let current_date := start_time.fdiv 86400
    let end_date := end_time.fdiv 86400
    let n := (end_date - current_date + 1).toNat
    let contribs := (List.range n).map fun i : Nat =>
      processDay start_time end_time timezone_offset business_hours status_records
        (current_date + (i : Int))
    ((contribs.map Prod.fst).sum / 60, (contribs.map Prod.snd).sum / 60)

/-- Result row of `calculate_store_metrics` (report_generator.py lines
217-225): the 1-hour figures are minutes, the 1-day and 1-week figures
are hours. -/
structure StoreMetrics where
  uptime_last_hour : ℚ
  uptime_last_day : ℚ
  uptime_last_week : ℚ
  downtime_last_hour : ℚ
  downtime_last_day : ℚ
  downtime_last_week : ℚ
deriving DecidableEq, Repr

/-- Rounding to two decimal places, modelling Python's `round(x, 2)`.
Mathlib's `round` rounds exact half-cent ties up whereas Python rounds
them to even; the code's figures never pin tie behaviour, and away from
exact ties the two agree. -/
def round2 (x : ℚ) : ℚ := ((round (x * 100) : ℤ) : ℚ) / 100

/-- Embedding of `ReportGeneratorService.calculate_store_metrics`
(report_generator.py lines 194-225): interpolates the three trailing
windows ending at `current_time` (1h = 3600 s, 1d = 86400 s,
1w = 604800 s) and builds the row, converting the 1-hour figures to
minutes (`* 60`) and rounding every figure to two decimals. The store's
timezone and business hours are taken as already resolved. -/
def calculate_store_metrics (current_time timezone_offset : Int)
    (business_hours : HoursDict) (records : List StoreStatus) : StoreMetrics :=
  let p1h := interpolate_status_for_period (current_time - 3600) current_time
    timezone_offset business_hours records
  let p1d := interpolate_status_for_period (current_time - 86400) current_time
    timezone_offset business_hours records
  let p1w := interpolate_status_for_period (current_time - 604800) current_time
    timezone_offset business_hours records
  { uptime_last_hour := round2 (p1h.1 * 60)
    uptime_last_day := round2 p1d.1
    uptime_last_week := round2 p1w.1
    downtime_last_hour := round2 (p1h.2 * 60)
    downtime_last_day := round2 p1d.2
    downtime_last_week := round2 p1w.2 }

/-- Modelled from the spec (§3 invariant and §4.2): the business-hours
duration, in hours, contributed by one local calendar date `m` to the
query range `[start_time, end_time]`. The weekday's local window is
combined with the date, the end gets one extra day when the window
crosses midnight, the wall-clock bounds are localized to UTC by
subtracting the zone offset, and the result is clipped to the range. -/
def specDayDuration (start_time end_time timezone_offset : Int)
    (business_hours : HoursDict) (m : Int) : ℚ :=
  match business_hours (((m + 3).emod 7).toNat) with
  | none => 0
  | some (s, e) =>
    let wStart : Int := m * 86400 + (s : Int) - timezone_offset
    let wEnd : Int :=
      m * 86400 + (if (e : Int) < (s : Int) then (e : Int) + 86400 else (e : Int))
        - timezone_offset
    let lo := max start_time wStart
    let hi := min end_time wEnd
    if lo < hi then ((hi - lo : Int) : ℚ) / 3600 else 0

/-- Modelled from the spec (§3 invariant: "the business-hours duration of
that window intersected with the query range"): the total business-hours
duration of the range in hours, summing `specDayDuration` over every
local calendar date whose window can meet the range — the local dates of
the range's endpoints plus one date earlier, since an overnight window of
the preceding date can spill into the range. When the per-date windows do
not overlap one another this sum is exactly the length of the
intersection of the business windows with the range. -/
def specBusinessDuration (start_time end_time timezone_offset : Int)
    (business_hours : HoursDict) : ℚ :=
  let dLo := (start_time + timezone_offset).fdiv 86400 - 1
  let dHi := (end_time + timezone_offset).fdiv 86400
  let n := (dHi - dLo + 1).toNat
  ((List.range n).map fun i : Nat =>
    specDayDuration start_time end_time timezone_offset business_hours (dLo + (i : Int))).sum

/-- The report record persisted by the `trigger_report` endpoint
(endpoints.py line 19): `Report(id=report_id, status="Running")`, with
the nullable `file_path` column unset. -/
def trigger_report_record : Report := { status := "Running", file_path := none }

/-- Transitions performed on a report record by the code. The only
status writes in the repository are the creation in "Running"
(endpoints.py line 19, i.e. `trigger_report_record`), the success path
`status = "Complete"; file_path = csv_file_path` (report_generator.py
lines 268-269) and the failure path `status = "Failed"`
(report_generator.py line 274). `generate_report_async` runs once for a
freshly created job (spec §4.4: not re-entrant for the same job id), so
both writes act on a record that is still "Running". -/
inductive JobStep : Report → Report → Prop
  | complete (r : Report) (path : String) (h : r.status = "Running") :
      JobStep r { status := "Complete", file_path := some path }
  | fail (r : Report) (h : r.status = "Running") :
      JobStep r { status := "Failed", file_path := r.file_path }

/-- Embedding of the per-location accumulation loop of
`generate_report_async` (report_generator.py lines 245-252): each store's
metrics computation either succeeds (`some row`) or raises (`none`, the
`except` branch), and a raising store is skipped while the loop
continues. `metricsOf` abstracts the outcome of
`calculate_store_metrics` for each store id. -/
def generate_report_rows (metricsOf : String → Option StoreMetrics)
    (store_ids : List String) : List StoreMetrics :=
  store_ids.filterMap metricsOf

/-- Embedding of the happy path of `generate_report_async`
(report_generator.py lines 245-270): accumulate one row per
successfully-computed store, write the artifact, and set the job status
to "Complete". Per-location failures stay inside the loop; only a
failure outside it (e.g. writing the artifact) would take the job to
"Failed" instead. -/
def generate_report_outcome (metricsOf : String → Option StoreMetrics)
    (store_ids : List String) : List StoreMetrics × String :=
  (generate_report_rows metricsOf store_ids, "Complete")

/-- Response of the `get_report` endpoint, abstracting FastAPI's return
values: 404 "Report not found", the `{"status": "Running"}` JSON body,
a `FileResponse` with its path and download filename, or an
`HTTPException(500, detail)`. -/
inductive GetReportResult where
  | notFound
  | runningBody
  | fileResponse (path : String) (filename : String)
  | serverError (detail : String)
deriving DecidableEq, Repr

/-- Embedding of the `get_report` endpoint (endpoints.py lines 29-49).
`lookup` is the database lookup result for `report_id` and
`path_exists` models `os.path.exists`. Python's
`if report.file_path and os.path.exists(report.file_path)` treats both a
NULL and an empty-string path as falsy, hence the emptiness test. -/
def get_report (report_id : String) (lookup : Option Report)
    (path_exists : String → Bool) : GetReportResult :=
  match lookup with
  | none => .notFound
  | some report =>
    if report.status = "Running" then .runningBody
    else if report.status = "Complete" then
      match report.file_path with
      | some fp =>
        if fp ≠ "" ∧ path_exists fp then
          .fileResponse fp ("store_report_" ++ report_id ++ ".csv")
        else .serverError "Report file not found"
      | none => .serverError "Report file not found"
    else .serverError "Report generation failed"

/-! Helper lemmas. -/

/-- The inner interpolation loop conserves time: uptime plus downtime of a
walk equals the length of `[last_timestamp, period_end]` in minutes,
whatever the statuses are. -/
theorem walkRecords_add (period_end : Int) (l : List StoreStatus)
    (t : Int) (s : String) :
    (walkRecords period_end l t s).1 + (walkRecords period_end l t s).2
      = ((period_end - t : Int) : ℚ) / 60 := by
  induction l generalizing t s with
  | nil =>
    simp only [walkRecords]
    split <;> simp
  | cons r rest ih =>
    simp only [walkRecords]
    have h := ih r.timestamp_utc r.status
    split <;> push_cast at h ⊢ <;> linarith

/-- Componentwise sums of a list of pairs add up to the sum of the
componentwise additions. -/
theorem sum_fst_add_sum_snd (l : List (ℚ × ℚ)) :
    (l.map Prod.fst).sum + (l.map Prod.snd).sum
      = (l.map fun p => p.1 + p.2).sum := by
  induction l with
  | nil => simp
  | cons p tl ih =>
    simp only [List.map_cons, List.sum_cons]
    linarith

/-- With records sorted and contained in `[last_timestamp, period_end]`,
every attributed duration of the inner loop is non-negative, hence so are
both totals. -/
theorem walkRecords_nonneg (period_end : Int) (l : List StoreStatus)
    (t : Int) (s : String)
    (hsorted : l.Pairwise fun a b => a.timestamp_utc ≤ b.timestamp_utc)
    (hlo : ∀ r ∈ l, t ≤ r.timestamp_utc)
    (hhi : ∀ r ∈ l, r.timestamp_utc ≤ period_end)
    (hte : t ≤ period_end) :
    0 ≤ (walkRecords period_end l t s).1 ∧ 0 ≤ (walkRecords period_end l t s).2 := by
  induction l generalizing t s with
  | nil =>
    have key : (0 : ℚ) ≤ ((period_end : ℚ) - (t : ℚ)) / 60 := by
      apply div_nonneg _ (by norm_num)
      have : (t : ℚ) ≤ (period_end : ℚ) := by exact_mod_cast hte
      linarith
    simp only [walkRecords]
    split
    · exact ⟨by push_cast; linarith, by norm_num⟩
    · exact ⟨by norm_num, by push_cast; linarith⟩
  | cons r rest ih =>
    rw [List.pairwise_cons] at hsorted
    have hdur : (0 : ℚ) ≤ ((r.timestamp_utc : ℚ) - (t : ℚ)) / 60 := by
      apply div_nonneg _ (by norm_num)
      have : (t : ℚ) ≤ (r.timestamp_utc : ℚ) := by
        exact_mod_cast hlo r (by simp)
      linarith
    have htail := ih r.timestamp_utc r.status hsorted.2
      (fun x hx => hsorted.1 x hx)
      (fun x hx => hhi x (List.mem_cons_of_mem _ hx))
      (hhi r (by simp))
    simp only [walkRecords]
    split <;> constructor <;> push_cast <;> linarith [htail.1, htail.2]

/-- One day's contribution of `interpolate_status_for_period` is
non-negative in both components when the records are chronologically
ordered. -/
theorem processDay_nonneg (start_time end_time timezone_offset : Int)
    (business_hours : HoursDict) (status_records : List StoreStatus) (date : Int)
    (hs : status_records.Pairwise fun a b => a.timestamp_utc ≤ b.timestamp_utc) :
    0 ≤ (processDay start_time end_time timezone_offset business_hours status_records date).1
    ∧ 0 ≤ (processDay start_time end_time timezone_offset business_hours status_records date).2 := by
  unfold processDay
  cases business_hours (localWeekday timezone_offset date) with
  | none => simp
  | some se =>
    obtain ⟨s, e⟩ := se
    simp only []
    split
    · simp
    · rename_i hpe
      push_neg at hpe
      split
      · refine ⟨le_refl 0, ?_⟩
        apply div_nonneg _ (by norm_num)
        exact_mod_cast Int.sub_nonneg.mpr (le_of_lt hpe)
      · apply walkRecords_nonneg
        · exact hs.filter _
        · intro x hx
          simp only [List.mem_filter, Bool.and_eq_true, decide_eq_true_eq] at hx
          exact hx.2.1
        · intro x hx
          simp only [List.mem_filter, Bool.and_eq_true, decide_eq_true_eq] at hx
          exact hx.2.2
        · exact le_of_lt hpe

/-- Domain of the dict built by `get_business_hours` from a non-empty row
list: a day is absent exactly when no row lists it (generalized over the
fold's initial dict). -/
theorem business_hours_foldl_none (rows : List BusinessHours) (f : HoursDict) (d : Nat) :
    (rows.foldl
        (fun acc bh => fun x =>
          if x = bh.day_of_week then some (bh.start_time_local, bh.end_time_local)
          else acc x)
        f) d = none
      ↔ (f d = none ∧ d ∉ rows.map BusinessHours.day_of_week) := by
  induction rows generalizing f with
  | nil => simp
  | cons bh tl ih =>
    simp only [List.foldl_cons, List.map_cons, List.mem_cons]
    rw [ih]
    by_cases hd : d = bh.day_of_week <;> simp [hd]

/-- With a zero zone offset the local calendar date of a UTC date's
midnight is that UTC date. -/
theorem localDate_zero (date : Int) : localDate 0 date = date := by
  unfold localDate
  rw [add_zero, Int.fdiv_eq_ediv _ (by norm_num)]
  exact Int.mul_ediv_cancel _ (by norm_num)

/-- With a zero zone offset the local weekday of a UTC date's midnight is
the date's weekday (epoch day Thursday = 3). -/
theorem localWeekday_zero (date : Int) :
    localWeekday 0 date = ((date + 3).emod 7).toNat := by
  unfold localWeekday
  rw [add_zero, Int.fdiv_eq_ediv _ (by norm_num), Int.mul_ediv_cancel _ (by norm_num)]

/-- Business window of a day whose local times do not cross midnight. -/
theorem bhWindowUtc_of_le (timezone_offset local_date : Int) (s e : Nat) (h : s ≤ e) :
    bhWindowUtc timezone_offset local_date s e
      = (local_date * 86400 + (s : Int) - timezone_offset,
         local_date * 86400 + (e : Int) - timezone_offset) := by
  have h2 : ¬((e : Int) < (s : Int)) := not_lt.mpr (by exact_mod_cast h)
  simp [bhWindowUtc, h2]

/-- With a zero offset, in-day windows and at least one record in range,
one day's uptime plus downtime in minutes is sixty times the day's
business-hours duration in hours. -/
theorem processDay_add_eq_specDay (start_time end_time : Int)
    (business_hours : HoursDict) (status_records : List StoreStatus) (date : Int)
    (hbh : ∀ d s e, business_hours d = some (s, e) → s ≤ e ∧ e < 86400) :
    (processDay start_time end_time 0 business_hours status_records date).1
      + (processDay start_time end_time 0 business_hours status_records date).2
      = 60 * specDayDuration start_time end_time 0 business_hours date := by
  unfold processDay specDayDuration
  rw [localWeekday_zero, localDate_zero]
  cases hsome : business_hours (((date + 3).emod 7).toNat) with
  | none => simp
  | some se =>
    obtain ⟨s, e⟩ := se
    obtain ⟨hse, _⟩ := hbh _ _ _ hsome
    simp only [bhWindowUtc_of_le 0 date s e hse, sub_zero,
      if_neg (not_lt.mpr (show (e : Int) ≥ (s : Int) by exact_mod_cast hse))]
    set lo := max start_time (date * 86400 + (s : Int)) with hlo
    set hi := min end_time (date * 86400 + (e : Int)) with hhi
    by_cases hord : hi ≤ lo
    · rw [if_pos hord, if_neg (not_lt.mpr hord)]
      norm_num
    · rw [if_neg hord, if_pos (lt_of_not_le hord)]
      split
      · push_cast
        ring_nf
      · rw [walkRecords_add]
        push_cast
        ring_nf

/-- A local calendar date strictly before the range's first UTC date
contributes nothing to the spec-side business duration when all windows
lie inside their day. -/
theorem specDayDuration_before_range (start_time end_time : Int)
    (business_hours : HoursDict) (m : Int)
    (hbh : ∀ d s e, business_hours d = some (s, e) → s ≤ e ∧ e < 86400)
    (hm : m < start_time.fdiv 86400) :
    specDayDuration start_time end_time 0 business_hours m = 0 := by
  unfold specDayDuration
  cases hsome : business_hours (((m + 3).emod 7).toNat) with
  | none => simp
  | some se =>
    obtain ⟨s, e⟩ := se
    obtain ⟨hse, he⟩ := hbh _ _ _ hsome
    simp only [sub_zero,
      if_neg (not_lt.mpr (show (e : Int) ≥ (s : Int) by exact_mod_cast hse))]
    rw [if_neg]
    push_neg
    have h1 : start_time.fdiv 86400 * 86400 ≤ start_time := by
      rw [Int.fdiv_eq_ediv _ (by norm_num)]
      exact Int.ediv_mul_le _ (by norm_num)
    have h2 : (e : Int) < 86400 := by exact_mod_cast he
    calc min end_time (m * 86400 + (e : Int))
        ≤ m * 86400 + (e : Int) := min_le_right _ _
      _ ≤ start_time := by nlinarith [hm, h1, h2]
      _ ≤ max start_time (m * 86400 + (s : Int)) := le_max_left _ _

/-- Conservation amended to the conditions under which the code realizes
it: at least one observation in the range, a zero zone offset, every
listed window inside its day, and a non-empty range. Then uptime plus
downtime equals the business-hours duration of the range. -/
theorem interpolate_conserves_business_duration (start_time end_time : Int)
    (business_hours : HoursDict) (records : List StoreStatus)
    (hrange : start_time ≤ end_time)
    (hbh : ∀ d s e, business_hours d = some (s, e) → s ≤ e ∧ e < 86400)
    (hne : records.filter (fun r =>
        decide (start_time ≤ r.timestamp_utc) && decide (r.timestamp_utc ≤ end_time)) ≠ []) :
    (interpolate_status_for_period start_time end_time 0 business_hours records).1
      + (interpolate_status_for_period start_time end_time 0 business_hours records).2
      = specBusinessDuration start_time end_time 0 business_hours := by
  unfold interpolate_status_for_period specBusinessDuration
  rw [if_neg (by simpa [List.isEmpty_iff] using hne)]
  set SR := records.filter (fun r =>
    decide (start_time ≤ r.timestamp_utc) && decide (r.timestamp_utc ≤ end_time)) with hSR
  set d0 := start_time.fdiv 86400 with hd0
  set dn := end_time.fdiv 86400 with hdn
  have hd0n : d0 ≤ dn := by
    rw [hd0, hdn, Int.fdiv_eq_ediv _ (by norm_num), Int.fdiv_eq_ediv _ (by norm_num)]
    exact Int.ediv_le_ediv (by norm_num) hrange
  set k := (dn - d0).toNat with hk
  have hn1 : (dn - d0 + 1).toNat = k + 1 := by omega
  have hn2 : (dn - (d0 - 1) + 1).toNat = k + 2 := by omega
  simp only [add_zero, ← hd0, ← hdn, hn1, hn2]
  rw [div_add_div_same, sum_fst_add_sum_snd, List.map_map]
  have hstep : ∀ i ∈ List.range (k + 1),
      ((fun p : ℚ × ℚ => p.1 + p.2) ∘ fun i : Nat =>
        processDay start_time end_time 0 business_hours SR (d0 + (i : Int))) i
        = (fun i : Nat =>
            60 * specDayDuration start_time end_time 0 business_hours (d0 + (i : Int))) i := by
    intro i _
    exact processDay_add_eq_specDay start_time end_time business_hours SR (d0 + (i : Int)) hbh
  rw [List.map_congr_left hstep, List.sum_map_mul_left]
  conv_rhs => rw [List.range_succ_eq_map, List.map_cons, List.sum_cons, List.map_map]
  have hfirst : specDayDuration start_time end_time 0 business_hours
      (d0 - 1 + ((0 : Nat) : Int)) = 0 := by
    apply specDayDuration_before_range start_time end_time business_hours _ hbh
    omega
  rw [hfirst, zero_add]
  have hshift : ∀ i ∈ List.range (k + 1),
      ((fun i : Nat =>
          specDayDuration start_time end_time 0 business_hours (d0 - 1 + (i : Int))) ∘ Nat.succ) i
        = (fun i : Nat =>
            specDayDuration start_time end_time 0 business_hours (d0 + (i : Int))) i := by
    intro i _
    simp only [Function.comp_apply]
    congr 1
    push_cast
    ring_nf
  rw [List.map_congr_left hshift]
  field_simp


/-! Claim theorems. -/

/-- C1. The claim says that with no observation in the range the whole
business-hours duration of the range goes to downtime. The code instead
returns `(0.0, 0.0)` from the early exit on report_generator.py lines
110-112, against its own comment "assume store was inactive": over the
full UTC day 1970-01-01 with the 24/7 default hours and no observations,
uptime and downtime are both zero while the business-hours duration of
the range is 86399 seconds. -/
theorem no_observation_range_yields_zero_zero :
    interpolate_status_for_period 0 86400 0 default_hours_dict [] = (0, 0)
    ∧ specBusinessDuration 0 86400 0 default_hours_dict = 86399 / 3600 := by
  constructor
  · with_unfolding_all rfl
  · with_unfolding_all rfl

/-- C2, counterexample. With the America/Chicago winter offset (-21600 s),
9:00-17:00 windows every day, the range 1970-01-01 00:00 UTC to
1970-01-02 23:00 UTC and one in-range observation, uptime plus downtime
is 8 hours while the business-hours duration of the range is 16 hours:
the day loop iterates UTC dates and maps each UTC midnight to a local
date, so the last local date's window (15:00-23:00 UTC of 1970-01-02)
is never processed. -/
theorem interpolate_misses_last_local_day :
    (interpolate_status_for_period 0 169200 (-21600)
        (fun d => if d < 7 then some (32400, 61200) else none)
        [⟨146400, "active"⟩]).1
      + (interpolate_status_for_period 0 169200 (-21600)
          (fun d => if d < 7 then some (32400, 61200) else none)
          [⟨146400, "active"⟩]).2
      ≠ specBusinessDuration 0 169200 (-21600)
          (fun d => if d < 7 then some (32400, 61200) else none) := by
  have h1 : (interpolate_status_for_period 0 169200 (-21600)
      (fun d => if d < 7 then some (32400, 61200) else none)
      [⟨146400, "active"⟩]).1
      + (interpolate_status_for_period 0 169200 (-21600)
          (fun d => if d < 7 then some (32400, 61200) else none)
          [⟨146400, "active"⟩]).2 = 8 := by
    with_unfolding_all rfl
  have h2 : specBusinessDuration 0 169200 (-21600)
      (fun d => if d < 7 then some (32400, 61200) else none) = 16 := by
    with_unfolding_all rfl
  rw [h1, h2]
  norm_num

/-- C2, witness for the amended conservation theorem: same windows and
range as the counterexample but with a zero zone offset, where the
equality does hold. -/
theorem interpolate_conserves_business_duration_witness :
    (interpolate_status_for_period 0 169200 0
        (fun d => if d < 7 then some (32400, 61200) else none)
        [⟨146400, "active"⟩]).1
      + (interpolate_status_for_period 0 169200 0
          (fun d => if d < 7 then some (32400, 61200) else none)
          [⟨146400, "active"⟩]).2
      = specBusinessDuration 0 169200 0
          (fun d => if d < 7 then some (32400, 61200) else none) := by
  apply interpolate_conserves_business_duration
  · decide
  · intro d s e h
    by_cases hd : d < 7 <;> simp [hd] at h
    omega
  · decide

/-- C3. The two fallback policies of `get_business_hours` are distinct:
with zero stored rows every one of the seven days gets the full-day
window 00:00:00-23:59:59; with a non-empty row list a day is absent from
the dict exactly when no row lists it, and a day absent from the dict is
skipped by the day loop of `interpolate_status_for_period`, contributing
zero to both uptime and downtime. -/
theorem business_hours_fallback_policies :
    (∀ d : Nat, get_business_hours [] d = if d < 7 then some (0, 86399) else none)
    ∧ (∀ rows : List BusinessHours, rows ≠ [] → ∀ d : Nat,
        (get_business_hours rows d = none ↔ d ∉ rows.map BusinessHours.day_of_week))
    ∧ (∀ (start_time end_time timezone_offset : Int) (business_hours : HoursDict)
        (status_records : List StoreStatus) (date : Int),
        business_hours (localWeekday timezone_offset date) = none →
        processDay start_time end_time timezone_offset business_hours status_records date
          = (0, 0)) := by
  refine ⟨fun d => rfl, fun rows hrows d => ?_, ?_⟩
  · unfold get_business_hours
    rw [if_neg (by simpa [List.isEmpty_iff] using hrows)]
    rw [business_hours_foldl_none]
    simp
  · intro start_time end_time timezone_offset business_hours status_records date h
    unfold processDay
    rw [h]

/-- C3, witness: a store listing only Monday (day 0) has no Tuesday
entry, and the day loop contributes zero on a Tuesday date
(1970-01-06, date index 5, weekday 1). -/
theorem business_hours_fallback_policies_witness :
    (get_business_hours [⟨0, 32400, 61200⟩] 1 = none)
    ∧ processDay 432000 518400 0 (get_business_hours [⟨0, 32400, 61200⟩])
        [⟨440000, "active"⟩] 5 = (0, 0) := by
  constructor
  · exact (business_hours_fallback_policies.2.1 [⟨0, 32400, 61200⟩] (by simp) 1).mpr
      (by decide)
  · exact business_hours_fallback_policies.2.2 432000 518400 0
      (get_business_hours [⟨0, 32400, 61200⟩]) [⟨440000, "active"⟩] 5 (by decide)

/-- C4. A window with `start_local > end_local` extends into the next
local calendar date: the UTC window end is one day after the combined
end instant, and the window length is `24h - start + end` seconds.
Concretely, with a 22:00-02:00 local window every day, a zero offset, the
range 1970-01-01 00:00 to 1970-01-03 02:00 UTC and one in-range
observation, exactly 8 hours (two 4-hour day pairings, each split across
a UTC date boundary) are attributed, all of it as claimed by the
interpolation. -/
theorem overnight_window_spans_next_date :
    (∀ (timezone_offset local_date : Int) (s e : Nat), (e : Int) < (s : Int) →
      bhWindowUtc timezone_offset local_date s e
        = (local_date * 86400 + (s : Int) - timezone_offset,
           (local_date + 1) * 86400 + (e : Int) - timezone_offset)
      ∧ (bhWindowUtc timezone_offset local_date s e).2
          - (bhWindowUtc timezone_offset local_date s e).1
          = 86400 - (s : Int) + (e : Int))
    ∧ interpolate_status_for_period 0 180000 0
        (fun d => if d < 7 then some (79200, 7200) else none)
        [⟨90000, "inactive"⟩] = (0, 8) := by
  constructor
  · intro timezone_offset local_date s e h
    constructor
    · simp only [bhWindowUtc, if_pos h, Prod.mk.injEq]
      exact ⟨by ring_nf, by ring_nf⟩
    · simp only [bhWindowUtc, if_pos h]
      ring_nf
  · with_unfolding_all rfl

/-- C4, witness: the 22:00-02:00 window of local date 0 with zero offset
runs from 79200 to 93600 seconds UTC, 14400 seconds (4 hours) long,
crossing the 86400-second date boundary. -/
theorem overnight_window_spans_next_date_witness :
    bhWindowUtc 0 0 79200 7200 = (79200, 93600)
    ∧ (bhWindowUtc 0 0 79200 7200).2 - (bhWindowUtc 0 0 79200 7200).1 = 14400 := by
  have h := overnight_window_spans_next_date.1 0 0 79200 7200 (by decide)
  exact ⟨h.1.trans (by decide), h.2.trans (by decide)⟩

/-- C5. The inner loop starts from an assumed `inactive` running state at
`period_start`; with exactly one observation of status "active" at `t`
inside the clipped period, downtime is the minutes from `period_start`
to `t` and uptime the minutes from `t` to `period_end`. Over a full UTC
day with 24/7 default hours and a single active observation at local
noon, `interpolate_status_for_period` accordingly returns
(43199/3600, 12) hours. -/
theorem single_active_observation_split :
    (∀ period_start period_end t : Int, period_start ≤ t → t ≤ period_end →
      walkRecords period_end [⟨t, "active"⟩] period_start "inactive"
        = (((period_end - t : Int) : ℚ) / 60, ((t - period_start : Int) : ℚ) / 60))
    ∧ interpolate_status_for_period 0 86400 0 default_hours_dict [⟨43200, "active"⟩]
        = (43199 / 3600, 12) := by
  constructor
  · intro period_start period_end t h1 h2
    simp [walkRecords]
  · with_unfolding_all rfl

/-- C5, witness: period [0, 86399], one active observation at 43200. -/
theorem single_active_observation_split_witness :
    walkRecords 86399 [⟨43200, "active"⟩] 0 "inactive" = (43199 / 60, 720) := by
  exact (single_active_observation_split.1 0 86399 43200 (by decide) (by decide)).trans
    (by with_unfolding_all rfl)

/-- C6. `calculate_store_metrics` reports the 1-hour window in minutes
(sixty times the interpolated hours of `[current_time - 3600,
current_time]`) and the 1-day and 1-week windows in hours, rounds all six
figures to two decimals, and with zero observations returns the all-zero
row rather than failing (the no-data early exit of the interpolation
yields `(0, 0)` for each window). -/
theorem metrics_units_and_rounding :
    (∀ (current_time timezone_offset : Int) (business_hours : HoursDict)
        (records : List StoreStatus),
      calculate_store_metrics current_time timezone_offset business_hours records =
        { uptime_last_hour := round2 ((interpolate_status_for_period (current_time - 3600)
              current_time timezone_offset business_hours records).1 * 60)
          uptime_last_day := round2 ((interpolate_status_for_period (current_time - 86400)
              current_time timezone_offset business_hours records).1)
          uptime_last_week := round2 ((interpolate_status_for_period (current_time - 604800)
              current_time timezone_offset business_hours records).1)
          downtime_last_hour := round2 ((interpolate_status_for_period (current_time - 3600)
              current_time timezone_offset business_hours records).2 * 60)
          downtime_last_day := round2 ((interpolate_status_for_period (current_time - 86400)
              current_time timezone_offset business_hours records).2)
          downtime_last_week := round2 ((interpolate_status_for_period (current_time - 604800)
              current_time timezone_offset business_hours records).2) })
    ∧ (∀ (current_time timezone_offset : Int) (business_hours : HoursDict),
      calculate_store_metrics current_time timezone_offset business_hours []
        = ⟨0, 0, 0, 0, 0, 0⟩) := by
  constructor
  · intro current_time timezone_offset business_hours records
    rfl
  · intro current_time timezone_offset business_hours
    have hz : ∀ a : Int, interpolate_status_for_period a current_time timezone_offset
        business_hours [] = (0, 0) := fun a => rfl
    simp [calculate_store_metrics, hz, round2]

/-- C7. Report-job lifecycle: the job record is created in status
"Running" with no artifact path; every transition the code performs
starts from a "Running" record; a transition lands either on "Complete"
with the artifact path attached at that moment or on "Failed"; and along
any sequence of transitions a record that is no longer "Running" never
changes again — so Complete and Failed are final and never swap. -/
theorem report_job_state_machine :
    trigger_report_record.status = "Running"
    ∧ trigger_report_record.file_path = none
    ∧ (∀ r r' : Report, JobStep r r' → r.status = "Running")
    ∧ (∀ r r' : Report, JobStep r r' →
        (r'.status = "Complete" ∧ ∃ p, r'.file_path = some p) ∨ r'.status = "Failed")
    ∧ (∀ r r' : Report, Relation.ReflTransGen JobStep r r' →
        r.status ≠ "Running" → r' = r) := by
  refine ⟨rfl, rfl, ?_, ?_, ?_⟩
  · intro r r' h
    cases h with
    | complete path h => exact h
    | fail h => exact h
  · intro r r' h
    cases h with
    | complete path h => exact Or.inl ⟨rfl, path, rfl⟩
    | fail h => exact Or.inr rfl
  · intro r r' h hr
    induction h with
    | refl => rfl
    | tail _ hstep ih =>
      rw [ih] at hstep
      cases hstep with
      | complete path h => exact absurd h hr
      | fail h => exact absurd h hr

/-- C7, witness: a step out of the freshly triggered record shows it is
"Running", and a record already in "Complete" stays itself along any
transition sequence (here the empty one). -/
theorem report_job_state_machine_witness :
    trigger_report_record.status = "Running"
    ∧ ({ status := "Complete", file_path := some "reports/a.csv" } : Report)
        = { status := "Complete", file_path := some "reports/a.csv" } := by
  constructor
  · exact report_job_state_machine.2.2.1 trigger_report_record
      { status := "Complete", file_path := some "reports/a.csv" }
      (JobStep.complete trigger_report_record "reports/a.csv" rfl)
  · exact report_job_state_machine.2.2.2.2
      { status := "Complete", file_path := some "reports/a.csv" }
      { status := "Complete", file_path := some "reports/a.csv" }
      Relation.ReflTransGen.refl (by decide)

/-- Helper: the number of rows produced by `filterMap` equals the number
of inputs on which the function succeeds. -/
theorem length_filterMap_eq_length_filter_isSome {α β : Type} (f : α → Option β)
    (l : List α) :
    (l.filterMap f).length = (l.filter fun a => (f a).isSome).length := by
  induction l with
  | nil => rfl
  | cons a tl ih =>
    rw [List.filterMap_cons, List.filter_cons]
    cases h : f a with
    | none => simpa [h] using ih
    | some b => simpa [h] using ih

/-- C8. Per-location failure isolation in `generate_report_async`: the
artifact holds exactly one row per store whose metrics computation
succeeded, the loop never aborts the job, and the job finishes
"Complete"; with one failing location out of three the artifact has
exactly two data rows. -/
theorem per_location_failure_isolation :
    (∀ (metricsOf : String → Option StoreMetrics) (store_ids : List String),
      (generate_report_outcome metricsOf store_ids).1.length
          = (store_ids.filter fun sid => (metricsOf sid).isSome).length
        ∧ (generate_report_outcome metricsOf store_ids).2 = "Complete")
    ∧ ((generate_report_outcome
          (fun sid => if sid = "B" then none else some ⟨0, 0, 0, 0, 0, 0⟩)
          ["A", "B", "C"]).1.length = 2
        ∧ (generate_report_outcome
            (fun sid => if sid = "B" then none else some ⟨0, 0, 0, 0, 0, 0⟩)
            ["A", "B", "C"]).2 = "Complete") := by
  refine ⟨fun metricsOf store_ids => ⟨?_, rfl⟩, by decide, rfl⟩
  exact length_filterMap_eq_length_filter_isSome metricsOf store_ids

/-- C9. Whatever the range, offset and business hours, and for any
chronologically ordered observation list, both components returned by
`interpolate_status_for_period` are non-negative. -/
theorem interpolate_status_nonneg (start_time end_time timezone_offset : Int)
    (business_hours : HoursDict) (records : List StoreStatus)
    (hsorted : records.Pairwise fun a b => a.timestamp_utc ≤ b.timestamp_utc) :
    0 ≤ (interpolate_status_for_period start_time end_time timezone_offset
        business_hours records).1
    ∧ 0 ≤ (interpolate_status_for_period start_time end_time timezone_offset
        business_hours records).2 := by
  simp only [interpolate_status_for_period]
  split
  · exact ⟨le_refl 0, le_refl 0⟩
  · have hSR : (records.filter fun r =>
        decide (start_time ≤ r.timestamp_utc) && decide (r.timestamp_utc ≤ end_time)).Pairwise
          fun a b => a.timestamp_utc ≤ b.timestamp_utc := hsorted.filter _
    constructor <;>
      refine div_nonneg (List.sum_nonneg ?_) (by norm_num) <;>
      intro x hx <;>
      simp only [List.map_map, List.mem_map, Function.comp_apply] at hx <;>
      obtain ⟨i, _, rfl⟩ := hx
    · exact (processDay_nonneg _ _ _ _ _ _ hSR).1
    · exact (processDay_nonneg _ _ _ _ _ _ hSR).2

/-- C9, witness: a concrete sorted two-observation input over one UTC day
with the 24/7 default hours. -/
theorem interpolate_status_nonneg_witness :
    0 ≤ (interpolate_status_for_period 0 86400 0 default_hours_dict
        [⟨10000, "active"⟩, ⟨50000, "inactive"⟩]).1
    ∧ 0 ≤ (interpolate_status_for_period 0 86400 0 default_hours_dict
        [⟨10000, "active"⟩, ⟨50000, "inactive"⟩]).2 := by
  exact interpolate_status_nonneg 0 86400 0 default_hours_dict
    [⟨10000, "active"⟩, ⟨50000, "inactive"⟩] (by decide)

/-- C10. When the stored report is "Complete" but the artifact path is
NULL or no longer exists on disk, `get_report` raises
`HTTPException(500, "Report file not found")` — not the file, not the
Running body, not the Failed error, and not the 404. -/
theorem get_report_complete_missing_file (report_id : String) (report : Report)
    (path_exists : String → Bool)
    (hc : report.status = "Complete")
    (hf : report.file_path = none
      ∨ ∀ fp, report.file_path = some fp → path_exists fp = false) :
    get_report report_id (some report) path_exists
      = .serverError "Report file not found" := by
  simp only [get_report]
  rw [hc]
  rw [if_neg (by decide), if_pos rfl]
  cases hfp : report.file_path with
  | none => rfl
  | some fp =>
    rcases hf with h | h
    · rw [hfp] at h
      exact absurd h (by simp)
    · have hpe := h fp hfp
      simp [hpe]

/-- C10, witness: a "Complete" report with a NULL path on a filesystem
with no files yields the 500 "Report file not found" error. -/
theorem get_report_complete_missing_file_witness :
    get_report "job1" (some { status := "Complete", file_path := none })
        (fun _ => false)
      = .serverError "Report file not found" := by
  exact get_report_complete_missing_file "job1"
    { status := "Complete", file_path := none } (fun _ => false) rfl (Or.inl rfl)
